import Mathlib

unseal Rat.add Rat.mul Rat.inv Rat.sub Rat.ofScientific

/-
Verification of the resolution and multi-scope aggregation core of dashds.py.

The dataset is the table loaded at lines 104-108: one row per municipality.
Numeric cells that may be missing are modelled as Option Rat (pandas NaN is
none); the two comparative-metric columns (tx_mortalidade_100mil_hab, ibeu)
arrive from the database with arbitrary content and are modelled as RawVal,
since the code coerces them with pd.to_numeric(errors=coerce) at lines 325
and 373.
-/

/-- Raw database cell for the comparative-metric columns: a number, an
arbitrary string, or SQL null. -/
inductive RawVal where
  | num (q : Rat)
  | str (s : String)
  | null
deriving DecidableEq

/-- One row of the dataframe loaded at lines 104-108 of dashds.py. -/
structure Record where
  cod_mun : String
  uf : String
  nome_mun : String
  pop_2010 : Option Rat := none
  pop_2015 : Option Rat := none
  pop_2016 : Option Rat := none
  pop_2022 : Option Rat := none
  auto_2023 : Option Rat := none
  moto_2023 : Option Rat := none
  outr_veic_2023 : Option Rat := none
  faixa_pop_2022 : Option String := none
  tx_mortalidade_100mil_hab : RawVal := RawVal.null
  ibeu : RawVal := RawVal.null
deriving DecidableEq

/-- Whitespace stripping from both ends of a character list, the behaviour
of Python str.strip and of the pandas str accessor. -/
def stripChars (cs : List Char) : List Char :=
  ((cs.dropWhile Char.isWhitespace).reverse.dropWhile Char.isWhitespace).reverse

/-- Python str.strip on a string. -/
def strip (s : String) : String :=
  String.mk (stripChars s.data)

/-- Value of a digit character, none for a non-digit (ASCII as in the C
parser behind pandas to_numeric). -/
def digitVal (c : Char) : Option Nat :=
  if c.isDigit then some (c.toNat - 48) else none

/-- Reads a digit string left to right; none as soon as a non-digit occurs.
An empty list reads as 0 (callers reject the fully empty numeral). -/
def parseNatDigits (cs : List Char) : Option Nat :=
  cs.foldl (fun acc c => acc.bind (fun a => (digitVal c).map (fun d => 10 * a + d))) (some 0)

/-- Unsigned decimal numeral: digits, optionally split by one dot, with at
least one digit overall, as accepted by pandas to_numeric. -/
def parseUnsigned (cs : List Char) : Option Rat :=
  match cs.span (fun c => c != '.') with
  | (intPart, []) =>
    if intPart.isEmpty then none
    else (parseNatDigits intPart).map (fun n => (n : Rat))
  | (intPart, _ :: fracPart) =>
    if fracPart.contains '.' then none
    else if intPart.isEmpty && fracPart.isEmpty then none
    else
      match parseNatDigits intPart, parseNatDigits fracPart with
      | some i, some f => some ((i : Rat) + (f : Rat) / ((10 : Rat) ^ fracPart.length))
      | _, _ => none

/-- Numeral with optional sign, surrounding whitespace stripped: the shape
of strings that pd.to_numeric parses. -/
def parseNumeric (s : String) : Option Rat :=
  match stripChars s.data with
  | [] => none
  | '-' :: rest => (parseUnsigned rest).map (fun q => -q)
  | '+' :: rest => parseUnsigned rest
  | cs => parseUnsigned cs

/-- pd.to_numeric(value, errors=coerce) on one cell: numbers pass through,
parseable strings become numbers, everything else becomes NaN (none).
Lines 325 and 373 of dashds.py. -/
def toNumericCoerce (v : RawVal) : Option Rat :=
  match v with
  | RawVal.num q => some q
  | RawVal.str s => parseNumeric s
  | RawVal.null => none

/-- pandas Series.sum with default skipna: nulls contribute nothing, an
empty or all-null series sums to 0 (a number, never NaN). -/
def pandasSum (xs : List (Option Rat)) : Rat :=
  (xs.filterMap id).sum

/-- pandas Series.mean with default skipna: nulls are excluded from both
numerator and denominator; with no numeric entry the result is NaN (none). -/
def pandasMean (xs : List (Option Rat)) : Option Rat :=
  let vs := xs.filterMap id
  if vs.isEmpty then none else some (vs.sum / (vs.length : Rat))

/-- An IEEE-style value as produced by numpy true division: NaN, an
infinity, or a finite number. NaN is the null of the dataframe. -/
inductive NpVal where
  | nan
  | pinf
  | ninf
  | num (q : Rat)
deriving DecidableEq

/-- numpy scalar true division x / y (line 266, qtd / total): NaN numerator
gives NaN; a zero denominator does not raise but gives NaN on 0/0 and a
signed infinity otherwise. -/
def npDiv (x : Option Rat) (y : Rat) : NpVal :=
  match x with
  | none => NpVal.nan
  | some q =>
    if y = 0 then
      if q = 0 then NpVal.nan
      else if 0 < q then NpVal.pinf
      else NpVal.ninf
    else NpVal.num (q / y)

/-- IEEE addition on NpVal, used to state the proportion law. -/
def npAdd : NpVal → NpVal → NpVal
  | NpVal.nan, _ => NpVal.nan
  | _, NpVal.nan => NpVal.nan
  | NpVal.pinf, NpVal.ninf => NpVal.nan
  | NpVal.ninf, NpVal.pinf => NpVal.nan
  | NpVal.pinf, _ => NpVal.pinf
  | _, NpVal.pinf => NpVal.pinf
  | NpVal.ninf, _ => NpVal.ninf
  | _, NpVal.ninf => NpVal.ninf
  | NpVal.num a, NpVal.num b => NpVal.num (a + b)

/-- Sum of a list of numpy values, NaN-propagating. -/
def npListSum (xs : List NpVal) : NpVal :=
  xs.foldl npAdd (NpVal.num 0)

/-- pandas == between two possibly-null cells: NaN compares unequal to
everything, itself included (used by the faixa_pop_2022 filter, line 251). -/
def pandasEqS (a b : Option String) : Bool :=
  match a, b with
  | some x, some y => x == y
  | _, _ => false

/-- Line 128: filter the dataset by IBGE code, trimmed on both sides,
compared as text. -/
def filterById (ds : List Record) (codMun : String) : List Record :=
  ds.filter (fun r => strip r.cod_mun == strip codMun)

/-- Lines 140-143: narrow to the chosen state first, then match the
municipality name exactly inside that subset. -/
def filterByName (ds : List Record) (uf nome : String) : List Record :=
  (ds.filter (fun r => r.uf == uf)).filter (fun r => r.nome_mun == nome)

/-- Lines 124-143: the two-tier resolution. A non-empty code is tried
first; when the code is empty or matches nothing, the (uf, name) path is
used. Every later use of the filtered frame is iloc[0], so the resolved
record is the head of the surviving subset; none models the empty frame. -/
def resolve (ds : List Record) (codMun uf nome : String) : Option Record :=
  let dfFilMun := if codMun == "" then [] else filterById ds codMun
  if codMun == "" || dfFilMun.isEmpty then (filterByName ds uf nome).head?
  else dfFilMun.head?

/-- Line 251: peers of the resolved record in its population bracket,
selected from the whole dataset (no uf filter); a NaN bracket matches
nothing under pandas ==. -/
def bracketSubset (ds : List Record) (rec : Record) : List Record :=
  ds.filter (fun r => pandasEqS r.faixa_pop_2022 rec.faixa_pop_2022)

/-- Line 253: peers of the resolved record in its state. When a record was
resolved, the uf variable of the script equals the records own uf on both
paths, so the subset is stated through the record. -/
def regionSubset (ds : List Record) (rec : Record) : List Record :=
  ds.filter (fun r => r.uf == rec.uf)

/-- Line 254: the national scope is the whole dataset. -/
def countrySubset (ds : List Record) : List Record :=
  ds

/-- The three fleet cells of one record, in column order (line 250). -/
def fleetCols (r : Record) : List (Option Rat) :=
  [r.auto_2023, r.moto_2023, r.outr_veic_2023]

/-- Column-wise fleet sums of a subset, df[sub][cols].sum() (lines 251-254):
per column a skipna sum, hence a plain number even on an empty subset. -/
def colSums (ds : List Record) : List Rat :=
  [pandasSum (ds.map (fun r => r.auto_2023)),
   pandasSum (ds.map (fun r => r.moto_2023)),
   pandasSum (ds.map (fun r => r.outr_veic_2023))]

/-- The niveis dict of lines 249-255: the record row itself (raw cells,
possibly NaN), then the three summed scopes (always numbers, lifted). -/
def nivelValores (ds : List Record) (rec : Record) : List (String × List (Option Rat)) :=
  [("Município", fleetCols rec),
   ("Faixa Populacional", (colSums (bracketSubset ds rec)).map some),
   ("Estado", (colSums (regionSubset ds rec)).map some),
   ("Brasil", (colSums (countrySubset ds)).map some)]

/-- Lines 260-266: each value of a level divided by the total of that same
level, numpy semantics. -/
def participacao (valores : List (Option Rat)) : List NpVal :=
  valores.map (fun v => npDiv v (pandasSum valores))

/-- One row of dados_grafico (lines 262-267). -/
structure GraficoRow where
  nivel : String
  tipo : String
  quantidade : Option Rat
  particip : NpVal
deriving DecidableEq

/-- The vehicle-type labels zipped against the values (line 261). -/
def tiposVeiculo : List String :=
  ["Automóveis", "Motocicletas", "Outros Veículos"]

/-- Lines 258-267: the full comparison table driving the level chart. -/
def dadosGrafico (ds : List Record) (rec : Record) : List GraficoRow :=
  (nivelValores ds rec).flatMap (fun nv =>
    (tiposVeiculo.zip nv.2).map (fun tq =>
      { nivel := nv.1, tipo := tq.1, quantidade := tq.2,
        particip := npDiv tq.2 (pandasSum nv.2) }))

/-- The chart is only built when a record was resolved (guard at line 247);
the resolved record feeds every scope computation. -/
def pipelineGrafico (ds : List Record) (codMun uf nome : String) : Option (List GraficoRow) :=
  (resolve ds codMun uf nome).map (fun rec => dadosGrafico ds rec)

/-- The coerced mortality column (line 325). -/
def taxaCol (r : Record) : Option Rat :=
  toNumericCoerce r.tx_mortalidade_100mil_hab

/-- Line 331: the record-level mortality cell is read from the frame copy
made before the coercion, hence still raw. -/
def taxaMunicipio (rec : Record) : RawVal :=
  rec.tx_mortalidade_100mil_hab

/-- Lines 332-333: mean of the coerced mortality column over the bracket
peers. -/
def taxaFaixa (ds : List Record) (rec : Record) : Option Rat :=
  pandasMean ((bracketSubset ds rec).map taxaCol)

/-- Line 334: mean of the coerced mortality column over the state peers. -/
def taxaEstado (ds : List Record) (rec : Record) : Option Rat :=
  pandasMean ((regionSubset ds rec).map taxaCol)

/-- Line 335: mean of the coerced mortality column over the whole dataset. -/
def taxaBrasil (ds : List Record) : Option Rat :=
  pandasMean (ds.map taxaCol)

/-- The coerced well-being column (line 373). -/
def ibeuCol (r : Record) : Option Rat :=
  toNumericCoerce r.ibeu

/-- Line 380: mean of the coerced ibeu column over the bracket peers. -/
def ibeuFaixa (ds : List Record) (rec : Record) : Option Rat :=
  pandasMean ((bracketSubset ds rec).map ibeuCol)

/-
Concrete records used by the example scenarios and the witnesses.
-/

/-- Record 001 of the concrete three-record scenario. -/
def rec001 : Record :=
  { cod_mun := "001", uf := "SP", nome_mun := "A", faixa_pop_2022 := some "small",
    auto_2023 := some 100, moto_2023 := some 50, outr_veic_2023 := some 10 }

/-- Record 002 of the concrete three-record scenario. -/
def rec002 : Record :=
  { cod_mun := "002", uf := "SP", nome_mun := "B", faixa_pop_2022 := some "small",
    auto_2023 := some 200, moto_2023 := some 0, outr_veic_2023 := some 0 }

/-- Record 003 of the concrete three-record scenario. -/
def rec003 : Record :=
  { cod_mun := "003", uf := "RJ", nome_mun := "C", faixa_pop_2022 := some "large",
    auto_2023 := some 300, moto_2023 := some 100, outr_veic_2023 := some 50 }

/-- The concrete three-record dataset of the scenario. -/
def specDS : List Record :=
  [rec001, rec002, rec003]

/-- Two distinct records sharing the IBGE code 001. -/
def dupA : Record :=
  { cod_mun := "001", uf := "SP", nome_mun := "A", faixa_pop_2022 := some "small" }

/-- Second record with the duplicated IBGE code 001. -/
def dupB : Record :=
  { cod_mun := "001", uf := "RJ", nome_mun := "B", faixa_pop_2022 := some "large" }

/-- A dataset with a duplicated IBGE code. -/
def dupDS : List Record :=
  [dupA, dupB]

/-- A record whose bracket is null, so its bracket subset is empty. -/
def rec0 : Record :=
  { cod_mun := "010", uf := "SP", nome_mun := "Z", faixa_pop_2022 := none,
    auto_2023 := some 7, moto_2023 := some 3, outr_veic_2023 := none }

/-- One-record dataset whose only record has a null bracket. -/
def ds0 : List Record :=
  [rec0]

/-- A record with fleet cells 5, -5, 0: the level total is zero while one
cell is positive. -/
def recNeg : Record :=
  { cod_mun := "020", uf := "SP", nome_mun := "N", faixa_pop_2022 := some "small",
    auto_2023 := some 5, moto_2023 := some (-5), outr_veic_2023 := some 0 }

/-- A record with a null fleet cell between two numeric ones. -/
def recC9 : Record :=
  { cod_mun := "030", uf := "SP", nome_mun := "M", faixa_pop_2022 := some "small",
    auto_2023 := some 1, moto_2023 := none, outr_veic_2023 := some 1 }

/-- Two records in the same state sharing the same name. -/
def nA : Record :=
  { cod_mun := "040", uf := "SP", nome_mun := "X", faixa_pop_2022 := some "small" }

/-- Second record with the same state and name as nA. -/
def nB : Record :=
  { cod_mun := "041", uf := "SP", nome_mun := "X", faixa_pop_2022 := some "large" }

/-- A dataset with a duplicated (uf, name) pair. -/
def dupNameDS : List Record :=
  [nA, nB]

/-- A single record reachable by the name path. -/
def wrec : Record :=
  { cod_mun := "123", uf := "SP", nome_mun := "A", faixa_pop_2022 := some "small" }

/-
Helper lemmas, shared by the claim theorems.
-/

/-- The pandas mean depends only on the surviving numeric entries. -/
theorem pandasMean_congr (xs ys : List (Option Rat))
    (h : xs.filterMap id = ys.filterMap id) : pandasMean xs = pandasMean ys := by
  simp [pandasMean, h]

/-- A list of nonnegative rationals summing to zero is all zeros. -/
theorem sum_zero_each_zero (l : List Rat) (hnn : ∀ x ∈ l, 0 ≤ x) (hs : l.sum = 0) :
    ∀ x ∈ l, x = 0 := by
  induction l with
  | nil => intro x hx; cases hx
  | cons a t ih =>
    have ha : 0 ≤ a := hnn a (List.mem_cons_self a t)
    have ht : ∀ x ∈ t, 0 ≤ x := fun x hx => hnn x (List.mem_cons_of_mem a hx)
    have hts : 0 ≤ t.sum := List.sum_nonneg ht
    have hsum : a + t.sum = 0 := by simpa [List.sum_cons] using hs
    have ha0 : a = 0 := le_antisymm (by linarith) ha
    have hts0 : t.sum = 0 := by linarith
    intro x hx
    rcases List.mem_cons.mp hx with rfl | hx2
    · exact ha0
    · exact ih ht hts0 x hx2

/-- Folding IEEE addition over finite numbers is plain addition. -/
theorem foldl_npAdd_num (l : List Rat) (a : Rat) :
    (l.map NpVal.num).foldl npAdd (NpVal.num a) = NpVal.num (a + l.sum) := by
  induction l generalizing a with
  | nil => simp
  | cons x t ih =>
    simp only [List.map_cons, List.foldl_cons]
    rw [show npAdd (NpVal.num a) (NpVal.num x) = NpVal.num (a + x) from rfl, ih]
    congr 1
    simp [List.sum_cons]
    ring

/-- Dividing every element before summing is summing then dividing. -/
theorem sum_map_div (l : List Rat) (t : Rat) :
    (l.map (fun q => q / t)).sum = l.sum / t := by
  induction l with
  | nil => simp
  | cons x xs ih => simp [List.sum_cons, ih, add_div]

/-
Claim theorems.
-/

/-- C1 counterexample: on the dataset dupDS, whose two distinct records
share the trimmed id 001, resolution by the id key 001 returns a record
(the first match) instead of failing, so the claim that it fails with
Ambiguous and never returns a record is false on the code. -/
theorem C1_counterexample :
    (filterById dupDS "001").length = 2 ∧ dupA ≠ dupB
    ∧ resolve dupDS "001" "" "" = some dupA := by decide

/-- C1 amended: resolution by a non-empty id key that matches at least one
record silently returns the first match, even when several records share
the trimmed id; the code has no Ambiguous outcome at all (the spec itself
flags the Ambiguous behaviour as a mandated improvement over this source,
section 9). -/
theorem C1_amended (ds : List Record) (codMun uf nome : String) (r : Record)
    (rest : List Record) (hne : codMun ≠ "")
    (hm : filterById ds codMun = r :: rest) :
    resolve ds codMun uf nome = some r := by
  have hb : (codMun == "") = false := by simpa using hne
  simp [resolve, hb, hm]

/-- C1 witness: the amended statement evaluated on the duplicated dataset. -/
theorem C1_amended_witness : resolve dupDS "001" "RJ" "B" = some dupA :=
  C1_amended dupDS "001" "RJ" "B" dupA [dupB] (by decide) (by decide)

/-- C4: on the scope values 10, null, 20 the skipna sum is 30 and the
skipna mean is 15 (two numeric entries), not 10. -/
theorem C4_sum_mean :
    pandasSum [some 10, none, some 20] = 30
    ∧ pandasMean [some 10, none, some 20] = some 15
    ∧ pandasMean [some 10, none, some 20] ≠ some 10 := by decide

/-- C5: on the concrete three-record dataset, resolving id 002 and reading
the auto participation per level gives Record 200/200 = 1, Faixa 300/360,
Estado 300/360 and Brasil 600/810. -/
theorem C5_scenario :
    resolve specDS "002" "" "" = some rec002
    ∧ pipelineGrafico specDS "002" "" "" = some (dadosGrafico specDS rec002)
    ∧ ((dadosGrafico specDS rec002).filter (fun row => row.tipo == "Automóveis")).map
        GraficoRow.particip
      = [NpVal.num 1, NpVal.num ((300 : Rat) / 360), NpVal.num ((300 : Rat) / 360),
         NpVal.num ((600 : Rat) / 810)] := by decide

/-- C7: when the id key is empty or matches no record and exactly one
record carries the given (uf, name) pair, resolution falls back to the
name path and returns that record, which indeed lies in the dataset and
carries the given state and name; the name filter runs inside the subset
already narrowed to the state. -/
theorem C7_fallback (ds : List Record) (codMun uf nome : String) (rec : Record)
    (hid : codMun = "" ∨ filterById ds codMun = [])
    (hu : filterByName ds uf nome = [rec]) :
    resolve ds codMun uf nome = some rec
    ∧ rec ∈ ds ∧ rec.uf = uf ∧ rec.nome_mun = nome := by
  have hres : resolve ds codMun uf nome = some rec := by
    rcases hid with h | h
    · simp [resolve, h, hu]
    · rcases eq_or_ne codMun "" with hc | hc
      · simp [resolve, hc, hu]
      · have hb : (codMun == "") = false := by simpa using hc
        simp [resolve, hb, h, hu]
  have hm : rec ∈ filterByName ds uf nome := by
    rw [hu]; exact List.mem_singleton_self rec
  unfold filterByName at hm
  rw [List.mem_filter] at hm
  rcases hm with ⟨hm3, hnome⟩
  rw [List.mem_filter] at hm3
  rcases hm3 with ⟨hds, huf⟩
  exact ⟨hres, hds, by simpa using huf, by simpa using hnome⟩

/-- C7 witness: the fallback evaluated on a one-record dataset with an
empty id key. -/
theorem C7_fallback_witness :
    resolve [wrec] "" "SP" "A" = some wrec
    ∧ wrec ∈ [wrec] ∧ wrec.uf = "SP" ∧ wrec.nome_mun = "A" :=
  C7_fallback [wrec] "" "SP" "A" wrec (Or.inl rfl) (by decide)

/-- C10: on the name path, when two or more records of the chosen state
share the chosen name, resolution silently returns the first such record,
and the whole level chart is computed from that first record; no
ambiguity failure is reported. -/
theorem C10_name_first (ds : List Record) (codMun uf nome : String)
    (r1 r2 : Record) (rest : List Record)
    (hid : codMun = "" ∨ filterById ds codMun = [])
    (hdup : filterByName ds uf nome = r1 :: r2 :: rest) :
    resolve ds codMun uf nome = some r1
    ∧ pipelineGrafico ds codMun uf nome = some (dadosGrafico ds r1) := by
  have hres : resolve ds codMun uf nome = some r1 := by
    rcases hid with h | h
    · simp [resolve, h, hdup]
    · rcases eq_or_ne codMun "" with hc | hc
      · simp [resolve, hc, hdup]
      · have hb : (codMun == "") = false := by simpa using hc
        simp [resolve, hb, h, hdup]
  exact ⟨hres, by simp [pipelineGrafico, hres]⟩

/-- C10 witness: the duplicate-name dataset with an empty id key resolves
to its first record and feeds the chart with it. -/
theorem C10_name_first_witness :
    resolve dupNameDS "" "SP" "X" = some nA
    ∧ pipelineGrafico dupNameDS "" "SP" "X" = some (dadosGrafico dupNameDS nA) :=
  C10_name_first dupNameDS "" "SP" "X" nA nB [] (Or.inl rfl) (by decide)

/-- C2 counterexample: on the one-record dataset whose record has a null
bracket, the bracket subset is empty, yet the sum-metric level built from
it holds the number 0 in every fleet column rather than null, so the claim
that every metric is null on an empty scope is false on the code; the
mean-metric on the same empty subset is null. -/
theorem C2_counterexample :
    bracketSubset ds0 rec0 = []
    ∧ (nivelValores ds0 rec0)[1]? = some ("Faixa Populacional", [some 0, some 0, some 0])
    ∧ taxaFaixa ds0 rec0 = none := by decide

/-- C2 amended: over an empty scope subset every mean-metric is null and
no error occurs, but every sum-metric is the number 0 (the skipna sum of
nothing), exactly as on a non-empty subset whose values are all null,
which also sums to 0. -/
theorem C2_amended (ds : List Record) (rec : Record) (xs : List (Option Rat))
    (h : bracketSubset ds rec = []) (hxs : ∀ x ∈ xs, x = none) :
    taxaFaixa ds rec = none
    ∧ ibeuFaixa ds rec = none
    ∧ (nivelValores ds rec)[1]? = some ("Faixa Populacional", [some 0, some 0, some 0])
    ∧ pandasSum xs = 0 := by
  have hnil : xs.filterMap id = [] := by
    rw [List.filterMap_eq_nil_iff]
    exact hxs
  refine ⟨?_, ?_, ?_, ?_⟩
  · simp [taxaFaixa, h, pandasMean]
  · simp [ibeuFaixa, h, pandasMean]
  · simp [nivelValores, h, colSums, pandasSum]
  · simp [pandasSum, hnil]

/-- C2 witness: the amended statement evaluated on the null-bracket
dataset and the all-null list. -/
theorem C2_amended_witness :
    taxaFaixa ds0 rec0 = none
    ∧ ibeuFaixa ds0 rec0 = none
    ∧ (nivelValores ds0 rec0)[1]? = some ("Faixa Populacional", [some 0, some 0, some 0])
    ∧ pandasSum [none, none] = 0 :=
  C2_amended ds0 rec0 [none, none] (by decide) (by decide)

/-- C8: for a resolved record with a non-null bracket, the bracket subset
is the whole-dataset filter on equal bracket (no narrowing by state), the
state subset is the whole-dataset filter on equal state, and the national
subset is the entire dataset. -/
theorem C8_scopes (ds : List Record) (rec : Record) (b : String)
    (hb : rec.faixa_pop_2022 = some b) :
    bracketSubset ds rec = ds.filter (fun r => r.faixa_pop_2022 == some b)
    ∧ regionSubset ds rec = ds.filter (fun r => r.uf == rec.uf)
    ∧ countrySubset ds = ds := by
  refine ⟨?_, rfl, rfl⟩
  unfold bracketSubset
  rw [hb]
  apply List.filter_congr
  intro r _
  cases hf : r.faixa_pop_2022 <;> rfl

/-- C8 witness: the scope subsets evaluated on the three-record dataset
for the record 002. -/
theorem C8_scopes_witness :
    bracketSubset specDS rec002 = specDS.filter (fun r => r.faixa_pop_2022 == some "small")
    ∧ regionSubset specDS rec002 = specDS.filter (fun r => r.uf == rec002.uf)
    ∧ countrySubset specDS = specDS :=
  C8_scopes specDS rec002 "small" (by decide)

/-- C6: a metric cell whose string fails numeric parsing coerces to null,
its record contributes neither to the numerator nor to the denominator of
any scope mean (dropping it leaves the mean unchanged), and on the values
10, unparseable, 20 the mean is 15, not a value counting the bad cell as
zero; the coercion and the aggregation are total functions, so no input
value can raise or halt the pipeline. -/
theorem C6_coercion (s : String) (pre post : List RawVal)
    (hs : parseNumeric s = none) :
    toNumericCoerce (RawVal.str s) = none
    ∧ pandasMean ((pre ++ RawVal.str s :: post).map toNumericCoerce)
        = pandasMean ((pre ++ post).map toNumericCoerce)
    ∧ pandasMean ([RawVal.num 10, RawVal.str s, RawVal.num 20].map toNumericCoerce)
        = some 15 := by
  have hc : toNumericCoerce (RawVal.str s) = none := by
    simpa [toNumericCoerce] using hs
  refine ⟨hc, ?_, ?_⟩
  · apply pandasMean_congr
    simp [List.map_append, List.filterMap_append, hc]
  · have hm : ([RawVal.num 10, RawVal.str s, RawVal.num 20].map toNumericCoerce)
        = [some 10, none, some 20] := by
      simp [toNumericCoerce, hs]
    rw [hm]
    decide

/-- C6 witness: the coercion facts evaluated at the unparseable string
abc sitting between the numeric cells 10 and 20. -/
theorem C6_coercion_witness :
    toNumericCoerce (RawVal.str "abc") = none
    ∧ pandasMean (([RawVal.num 10] ++ RawVal.str "abc" :: [RawVal.num 20]).map toNumericCoerce)
        = pandasMean (([RawVal.num 10] ++ [RawVal.num 20]).map toNumericCoerce)
    ∧ pandasMean ([RawVal.num 10, RawVal.str "abc", RawVal.num 20].map toNumericCoerce)
        = some 15 :=
  C6_coercion "abc" [RawVal.num 10] [RawVal.num 20] (by decide)

/-- C3 counterexample: on the record whose fleet cells are 5, -5 and 0 the
level total is 0, yet the computed participations are +infinity, -infinity
and NaN, so the claim that the proportion is null whenever the scope total
is zero is false on the code (numpy division yields signed infinities for
non-zero numerators); no exception is raised. -/
theorem C3_counterexample :
    pandasSum (fleetCols recNeg) = 0
    ∧ participacao (fleetCols recNeg) = [NpVal.pinf, NpVal.ninf, NpVal.nan] := by decide

/-- C3 amended: the participation of a category is its value divided by
the level total, computed by a total function (never a raised error); a
null total cannot occur because the skipna sum is always a number; when
the total is zero and the category values are all nonnegative or null,
every participation is null (NaN); when the total is non-zero, a non-null
category value q yields exactly q divided by the total. -/
theorem C3_amended (valores : List (Option Rat)) (v : Option Rat) (q : Rat)
    (hv : v ∈ valores) :
    ((∀ x ∈ valores, ∀ r : Rat, x = some r → 0 ≤ r) → pandasSum valores = 0 →
        npDiv v (pandasSum valores) = NpVal.nan)
    ∧ (pandasSum valores ≠ 0 → v = some q →
        npDiv v (pandasSum valores) = NpVal.num (q / pandasSum valores)) := by
  constructor
  · intro hnn hz
    rw [hz]
    cases hV : v with
    | none => rfl
    | some r =>
      have hmem : r ∈ valores.filterMap id :=
        List.mem_filterMap.mpr ⟨v, hv, by rw [hV]; rfl⟩
      have hr0 : r = 0 := by
        apply sum_zero_each_zero (valores.filterMap id) ?_ ?_ r hmem
        · intro x hx
          obtain ⟨a, ha, hax⟩ := List.mem_filterMap.mp hx
          exact hnn a ha x hax
        · simpa [pandasSum] using hz
      simp [npDiv, hr0]
  · intro hnz hq
    rw [hq]
    simp [npDiv, hnz]

/-- C3 witness: both branches of the amended statement evaluated on
concrete levels, one with a zero total and one with a negative value over
the non-zero total -2, where the unconditional value over total clause
applies. -/
theorem C3_amended_witness :
    npDiv (some 0) (pandasSum [some 0, none]) = NpVal.nan
    ∧ npDiv (some (-3)) (pandasSum [some (-3), some 1])
        = NpVal.num ((-3) / pandasSum [some (-3), some 1]) :=
  ⟨(C3_amended [some 0, none] (some 0) 0 (by decide)).1 (by decide) (by decide),
   (C3_amended [some (-3), some 1] (some (-3)) (-3) (by decide)).2 (by decide) rfl⟩

/-- C9 counterexample: on the record whose fleet cells are 1, null and 1
the level total is 2, which is non-zero, yet the NaN-propagating sum of
the computed participations is NaN rather than 1, so the proportion law as
claimed is false on the code once a category value is null. -/
theorem C9_counterexample :
    pandasSum (fleetCols recC9) = 2
    ∧ npListSum (participacao (fleetCols recC9)) = NpVal.nan := by decide

/-- C9 amended: for a level whose category values are all non-null (in
particular every level built from column sums), the participations sum to
exactly 1 whenever the level total is non-zero; when the total is zero and
the values are nonnegative, every participation is null (NaN). -/
theorem C9_amended (qs : List Rat) (p : NpVal) :
    (pandasSum (qs.map some) ≠ 0 →
        npListSum (participacao (qs.map some)) = NpVal.num 1)
    ∧ ((∀ q ∈ qs, 0 ≤ q) → pandasSum (qs.map some) = 0 →
        p ∈ participacao (qs.map some) → p = NpVal.nan) := by
  have hps : pandasSum (qs.map some) = qs.sum := by
    simp [pandasSum]
  constructor
  · intro hnz
    have ht : qs.sum ≠ 0 := by rw [hps] at hnz; exact hnz
    unfold npListSum participacao
    rw [hps]
    have hmap : (qs.map some).map (fun v => npDiv v qs.sum)
        = (qs.map (fun q => q / qs.sum)).map NpVal.num := by
      simp only [List.map_map]
      apply List.map_congr_left
      intro a _
      simp [Function.comp, npDiv, ht]
    rw [hmap, foldl_npAdd_num, sum_map_div, zero_add, div_self ht]
  · intro hnn hz hp
    rw [hps] at hz
    unfold participacao at hp
    rw [hps] at hp
    simp only [List.map_map, List.mem_map, Function.comp] at hp
    obtain ⟨q, hq, hpe⟩ := hp
    have hq0 : q = 0 := sum_zero_each_zero qs hnn hz q hq
    rw [← hpe, hq0, hz]
    rfl

/-- C9 witness: both branches of the amended statement evaluated on the
concrete levels 3, -1 (a negative value, non-zero total 2, where the
unconditional sum-to-1 clause applies) and 0 (total 0). -/
theorem C9_amended_witness :
    npListSum (participacao ([(3 : Rat), -1].map some)) = NpVal.num 1
    ∧ NpVal.nan = NpVal.nan :=
  ⟨(C9_amended [3, -1] NpVal.nan).1 (by decide),
   (C9_amended [0] NpVal.nan).2 (by decide) (by decide) (by decide)⟩
